import Mathlib

/-!
# Verification of the drone detection registry (`src/drone_detector.py`)

Shallow embedding of the event-aggregation core of `DroneDetector`:
the detection queue (`queue.Queue()`, `__init__` line 53), the
`detected_drones` registry and `detection_history` log updated by
`process_detections` (lines 246-281), the stats dictionary, and the
export paths `api_export` (lines 537-547) and `save_data` (lines 635-655).

Python dict values are modelled as records; keys that the code may leave
absent are `Option` fields.  Timestamps (ISO strings produced by
`datetime.now().isoformat()`) are modelled as `Nat`, ordered as the
strings are; signal power is modelled as `Int` (the registry only stores
it, never computes with it).  A `KeyError` raised while handling one
queue item is caught by the `except Exception` arm of the consumer loop,
which leaves all state unchanged and continues; the embedding therefore
returns the input state unchanged for such events.
-/

/-- The optional `location` payload built by `estimate_location`
(latitude/longitude plus accuracy in metres).  The registry never
inspects it, so the coordinate type is irrelevant; `Int` is used. -/
structure Loc where
  latitude : Int
  longitude : Int
  accuracy : Nat
deriving DecidableEq, Repr

/-- A detection event as assembled by `start_sdr_detection` /
`start_wifi_detection` and put on `detection_queue`.  Fields are
`Option` because `process_detections` reads them from a plain dict:
a malformed producer may omit `id` or `timestamp`. -/
structure Detection where
  id : Option String
  timestamp : Option Nat
  power : Option Int := none
  dtype : Option String := none
  location : Option Loc := none
deriving DecidableEq, Repr

/-- The per-drone record stored in `self.detected_drones[drone_id]`.
It is the original detection dict plus the keys added at creation
(`first_seen`, `duration`, `detection_count`).  `last_seen` is only
ever written in the already-present branch (line 257), so it is absent
on a freshly created record: hence `Option Nat`.  `timestamp`,
`first_seen` are `Nat` because creation raises (and is rejected) when
the event has no timestamp. -/
structure Track where
  id : String
  timestamp : Nat
  power : Option Int
  dtype : Option String
  location : Option Loc
  first_seen : Nat
  last_seen : Option Nat
  duration : Nat
  detection_count : Nat
deriving DecidableEq, Repr

/-- The `self.stats` dictionary: running totals updated by
`process_detections` lines 266 and 270.  The Python `set` of unique
drone ids is modelled as a duplicate-free list in insertion order. -/
structure Stats where
  total_detections : Nat
  unique_drones : List String
  last_update : Nat
deriving DecidableEq, Repr

/-- The mutable state of a `DroneDetector`: the `detected_drones`
insertion-ordered dict (association list), the `detection_history`
list, and `stats`. -/
structure DetectorState where
  detected_drones : List (String × Track)
  detection_history : List Detection
  stats : Stats
deriving DecidableEq, Repr

/-- State built by `DroneDetector.__init__` (lines 48-60): empty
registry, empty history, zeroed stats. -/
def initState : DetectorState :=
  { detected_drones := []
    detection_history := []
    stats := { total_detections := 0, unique_drones := [], last_update := 0 } }

/-- `self.stats['unique_drones'].add(drone_id)` (line 266): Python set
insertion, modelled on a duplicate-free list. -/
def setAdd (s : List String) (x : String) : List String :=
  if x ∈ s then s else s ++ [x]

/-- Lines 272-274: `if len(self.detection_history) > 1000:
self.detection_history = self.detection_history[-1000:]`. -/
def truncateHistory (h : List Detection) : List Detection :=
  if h.length > 1000 then h.drop (h.length - 1000) else h

/-- One iteration of the consumer loop `process_detections`
(lines 246-281) on a dequeued `detection`.  A missing `id` key makes
line 252 raise `KeyError`; a missing `timestamp` key makes line 257
(present branch) or line 262 (absent branch) raise before any state is
written; either way the `except Exception` arm catches it and the
state is returned unchanged. -/
def process_detection (s : DetectorState) (detection : Detection) : DetectorState :=
  match detection.id with
  | none => s
  | some drone_id =>
    match detection.timestamp with
    | none => s
    | some ts =>
      match List.lookup drone_id s.detected_drones with
      | some _ =>
        -- lines 255-259: update `last_seen`, `duration`, `detection_count`
        -- in place; the `power`, `location`, `type` keys are left untouched.
        { s with
            detected_drones :=
              s.detected_drones.map fun p =>
                if p.1 = drone_id then
                  (p.1, { p.2 with
                            last_seen := some ts
                            duration := p.2.duration + 1
                            detection_count := p.2.detection_count + 1 })
                else p
            detection_history := truncateHistory (s.detection_history ++ [detection])
            stats := { s.stats with
                         total_detections := s.stats.total_detections + 1 } }
      | none =>
        -- lines 260-266: the detection dict itself, with `first_seen`,
        -- `duration`, `detection_count` added, becomes the registry
        -- entry.  No `last_seen` key is written here.
        { s with
            detected_drones :=
              s.detected_drones ++
                [(drone_id,
                  { id := drone_id
                    timestamp := ts
                    power := detection.power
                    dtype := detection.dtype
                    location := detection.location
                    first_seen := ts
                    last_seen := none
                    duration := 1
                    detection_count := 1 })]
            detection_history := truncateHistory (s.detection_history ++ [detection])
            stats := { s.stats with
                         total_detections := s.stats.total_detections + 1
                         unique_drones := setAdd s.stats.unique_drones drone_id } }

/-- Consumer loop (`while self.running` in `process_detections`)
draining a list of queued detections in order. -/
def runDetector (ds : List Detection) : DetectorState :=
  ds.foldl process_detection initState

/-- `self.detection_queue = queue.Queue()` (`__init__` line 53): a FIFO
queue constructed with no `maxsize` argument, i.e. unbounded. -/
def initQueue : List Detection := []

/-- `self.detection_queue.put(detection)` as called by the producers
(`start_sdr_detection` line 140, `start_wifi_detection` line 214): on
an unbounded `queue.Queue` this always appends and returns. -/
def queue_put (q : List Detection) (d : Detection) : List Detection :=
  q ++ [d]

/-- The export document shape shared by `api_export` (lines 537-547)
and `save_data` (lines 635-655). -/
structure ExportDoc where
  detected_drones : List (String × Track)
  detection_history : List Detection
  total_detections : Nat
  unique_drones : List String
  export_time : Nat
deriving DecidableEq, Repr

/-- `/api/export` handler (lines 537-547): exports the registry, the
stats, and `self.detection_history[-100:]` — only the most recent 100
history entries. -/
def api_export (s : DetectorState) (now : Nat) : ExportDoc :=
  { detected_drones := s.detected_drones
    detection_history := s.detection_history.drop (s.detection_history.length - 100)
    total_detections := s.stats.total_detections
    unique_drones := s.stats.unique_drones
    export_time := now }

/-- `save_data` (lines 635-655): the shutdown export, which writes the
full `self.detection_history`. -/
def save_data (s : DetectorState) (now : Nat) : ExportDoc :=
  { detected_drones := s.detected_drones
    detection_history := s.detection_history
    total_detections := s.stats.total_detections
    unique_drones := s.stats.unique_drones
    export_time := now }

/-! ## Association-list helper lemmas

`self.detected_drones` is a Python dict, modelled as an association
list in insertion order with duplicate-free keys. -/

theorem lookup_map_update (k : String) (g : Track → Track) :
    ∀ l : List (String × Track),
      List.lookup k (l.map fun p => if p.1 = k then (p.1, g p.2) else p) =
        (List.lookup k l).map g
  | [] => rfl
  | (a, b) :: t => by
    by_cases h : a = k
    · subst h
      simp [List.lookup_cons, lookup_map_update a g t]
    · have h' : (k == a) = false := by
        simpa [beq_eq_false_iff_ne] using fun e => h e.symm
      simp [List.lookup_cons, h, h', lookup_map_update k g t]

theorem keys_map_update (k : String) (g : Track → Track) (l : List (String × Track)) :
    (l.map fun p => if p.1 = k then (p.1, g p.2) else p).map Prod.fst =
      l.map Prod.fst := by
  induction l with
  | nil => rfl
  | cons p t ih => by_cases h : p.1 = k <;> simp [h, ih]

theorem lookup_eq_none_iff (k : String) :
    ∀ l : List (String × Track), List.lookup k l = none ↔ k ∉ l.map Prod.fst
  | [] => by simp
  | (a, b) :: t => by
    by_cases h : k = a
    · subst h
      simp [List.lookup_cons]
    · have h' : (k == a) = false := by
        simpa [beq_eq_false_iff_ne] using h
      simp [List.lookup_cons, h, h', lookup_eq_none_iff k t]

theorem lookup_append_singleton (k : String) (t : Track) :
    ∀ l : List (String × Track), List.lookup k l = none →
      List.lookup k (l ++ [(k, t)]) = some t
  | [], _ => by simp [List.lookup_cons]
  | (a, b) :: l, h => by
    by_cases hk : k = a
    · subst hk
      simp [List.lookup_cons] at h
    · have h' : (k == a) = false := by
        simpa [beq_eq_false_iff_ne] using hk
      simp only [List.lookup_cons, h'] at h
      simp [List.cons_append, List.lookup_cons, h',
        lookup_append_singleton k t l h]

theorem mem_of_lookup_eq_some (k : String) (t : Track) :
    ∀ l : List (String × Track), List.lookup k l = some t → (k, t) ∈ l
  | [], h => by simp at h
  | (a, b) :: l, h => by
    by_cases hk : k = a
    · subst hk
      simp [List.lookup_cons] at h
      simp [h]
    · have h' : (k == a) = false := by
        simpa [beq_eq_false_iff_ne] using hk
      simp only [List.lookup_cons, h'] at h
      exact List.mem_cons_of_mem _ (mem_of_lookup_eq_some k t l h)

/-! ## Behaviour of one consumer-loop iteration -/

/-- A malformed event (missing `id` or `timestamp`) raises `KeyError`
before any state is written; the `except` arm leaves the state
unchanged. -/
theorem process_malformed (s : DetectorState) (d : Detection)
    (hbad : d.id = none ∨ d.timestamp = none) :
    process_detection s d = s := by
  rcases hbad with h | h
  · simp [process_detection, h]
  · cases hid : d.id with
    | none => simp [process_detection, hid]
    | some k => simp [process_detection, hid, h]

/-- Already-present branch (lines 255-259): the stored record keeps its
`power`, `location` and `type` values; only `last_seen`, `duration` and
`detection_count` change. -/
theorem lookup_process_present (s : DetectorState) (k : String) (t : Track)
    (d : Detection) (ts : Nat)
    (hid : d.id = some k) (hts : d.timestamp = some ts)
    (hl : List.lookup k s.detected_drones = some t) :
    List.lookup k (process_detection s d).detected_drones =
      some { t with
               last_seen := some ts
               duration := t.duration + 1
               detection_count := t.detection_count + 1 } := by
  simp only [process_detection, hid, hts, hl]
  rw [lookup_map_update k
    (fun u => { u with
                  last_seen := some ts
                  duration := u.duration + 1
                  detection_count := u.detection_count + 1 })
    s.detected_drones, hl]
  rfl

/-- Absent branch (lines 260-266): the new record has
`first_seen = timestamp`, counters 1, and no `last_seen` value. -/
theorem lookup_process_absent (s : DetectorState) (k : String)
    (d : Detection) (ts : Nat)
    (hid : d.id = some k) (hts : d.timestamp = some ts)
    (habs : List.lookup k s.detected_drones = none) :
    List.lookup k (process_detection s d).detected_drones =
      some { id := k
             timestamp := ts
             power := d.power
             dtype := d.dtype
             location := d.location
             first_seen := ts
             last_seen := none
             duration := 1
             detection_count := 1 } := by
  simp only [process_detection, hid, hts, habs]
  exact lookup_append_singleton k _ s.detected_drones habs

/-- Absent branch appends the new key at the end of the dict. -/
theorem keys_process_absent (s : DetectorState) (k : String)
    (d : Detection) (ts : Nat)
    (hid : d.id = some k) (hts : d.timestamp = some ts)
    (habs : List.lookup k s.detected_drones = none) :
    (process_detection s d).detected_drones.map Prod.fst =
      s.detected_drones.map Prod.fst ++ [k] := by
  simp [process_detection, hid, hts, habs]

/-- Present branch leaves the key sequence of the dict unchanged. -/
theorem keys_process_present (s : DetectorState) (k : String) (t : Track)
    (d : Detection) (ts : Nat)
    (hid : d.id = some k) (hts : d.timestamp = some ts)
    (hl : List.lookup k s.detected_drones = some t) :
    (process_detection s d).detected_drones.map Prod.fst =
      s.detected_drones.map Prod.fst := by
  simp only [process_detection, hid, hts, hl]
  exact keys_map_update k
    (fun u => { u with
                  last_seen := some ts
                  duration := u.duration + 1
                  detection_count := u.detection_count + 1 })
    s.detected_drones

/-! ## Claim C1 — merge policy on repeated events -/

/-- First scenario event of claim C1: `RF_2400_1000`, power −45 dBm,
time `T0 = 0`. -/
def evC1a : Detection :=
  { id := some "RF_2400_1000", timestamp := some 0, power := some (-45) }

/-- Second scenario event of claim C1: same id, power −50 dBm,
time `T1 = 1 > T0`. -/
def evC1b : Detection :=
  { id := some "RF_2400_1000", timestamp := some 1, power := some (-50) }

/-- Detector state after applying the two C1 scenario events in order. -/
def sC1 : DetectorState := runDetector [evC1a, evC1b]

/-- Claim C1 fails on the code: after the two scenario applies the
registry does hold exactly one track with `DetectionCount = 2` and
`LastSeen = T1`, but its stored power is the FIRST event's −45, not the
most recent −50 — the update branch of `process_detections` never
rewrites the `power` (or `location`) key. -/
theorem C1_counterexample :
    sC1.detected_drones.length = 1 ∧
    (List.lookup "RF_2400_1000" sC1.detected_drones).map Track.detection_count
      = some 2 ∧
    (List.lookup "RF_2400_1000" sC1.detected_drones).map Track.last_seen
      = some (some 1) ∧
    (List.lookup "RF_2400_1000" sC1.detected_drones).map Track.power
      = some (some (-45)) ∧
    ¬ (List.lookup "RF_2400_1000" sC1.detected_drones).map Track.power
      = some (some (-50)) := by
  decide

/-- Claim C1 as amended: after the two scenario applies the registry
holds exactly one track with `DetectionCount = 2`, `LastSeen = T1`, and
`CurrentPower = -45` — power and location keep the values of the FIRST
event; in general a repeat event updates only `last_seen`, `duration`
and `detection_count`, leaving every other stored field unchanged. -/
theorem C1_amended :
    (sC1.detected_drones.length = 1 ∧
     List.lookup "RF_2400_1000" sC1.detected_drones =
       some { id := "RF_2400_1000", timestamp := 0, power := some (-45)
              dtype := none, location := none, first_seen := 0
              last_seen := some 1, duration := 2, detection_count := 2 }) ∧
    ∀ (s : DetectorState) (k : String) (t : Track) (d : Detection) (ts : Nat),
      d.id = some k → d.timestamp = some ts →
      List.lookup k s.detected_drones = some t →
      List.lookup k (process_detection s d).detected_drones =
        some { t with
                 last_seen := some ts
                 duration := t.duration + 1
                 detection_count := t.detection_count + 1 } :=
  ⟨by decide, fun s k t d ts hid hts hl =>
    lookup_process_present s k t d ts hid hts hl⟩

/-- Witness for the amended claim C1: reapplying the −50 event to the
scenario state only bumps the counters and `last_seen`. -/
theorem C1_amended_witness :
    List.lookup "RF_2400_1000" (process_detection sC1 evC1b).detected_drones =
      some { id := "RF_2400_1000", timestamp := 0, power := some (-45)
             dtype := none, location := none, first_seen := 0
             last_seen := some 1, duration := 3, detection_count := 3 } :=
  C1_amended.2 sC1 "RF_2400_1000"
    { id := "RF_2400_1000", timestamp := 0, power := some (-45)
      dtype := none, location := none, first_seen := 0
      last_seen := some 1, duration := 2, detection_count := 2 }
    evC1b 1 rfl rfl (by decide)

/-! ## Claim C4 — track creation -/

/-- Fresh event used for claim C4: id `A`, timestamp 5. -/
def evC4 : Detection :=
  { id := some "A", timestamp := some 5, power := some (-47) }

/-- Claim C4 fails on the code: the newly created track for a fresh
`EmitterID` has `first_seen = 5` and `detection_count = 1`, but its
`last_seen` field is ABSENT (`none`) — `process_detections` writes
`last_seen` only in the already-present branch (line 257), never at
creation (lines 260-265). -/
theorem C4_counterexample :
    (List.lookup "A" (process_detection initState evC4).detected_drones).map
        Track.first_seen = some 5 ∧
    (List.lookup "A" (process_detection initState evC4).detected_drones).map
        Track.detection_count = some 1 ∧
    (List.lookup "A" (process_detection initState evC4).detected_drones).map
        Track.last_seen = some none ∧
    ¬ (List.lookup "A" (process_detection initState evC4).detected_drones).map
        Track.last_seen = some (some 5) := by
  decide

/-- Claim C4 as amended: for every event whose `EmitterID` is absent
from the registry, the consumer creates a new track whose `first_seen`
equals the event's timestamp and whose `detection_count` equals 1, but
whose `last_seen` field is left unset (it first appears on a repeat
event). -/
theorem C4_amended (s : DetectorState) (k : String) (d : Detection) (ts : Nat)
    (hid : d.id = some k) (hts : d.timestamp = some ts)
    (habs : List.lookup k s.detected_drones = none) :
    List.lookup k (process_detection s d).detected_drones =
      some { id := k, timestamp := ts, power := d.power, dtype := d.dtype
             location := d.location, first_seen := ts, last_seen := none
             duration := 1, detection_count := 1 } :=
  lookup_process_absent s k d ts hid hts habs

/-- Witness for the amended claim C4 on the concrete fresh event. -/
theorem C4_amended_witness :
    List.lookup "A" (process_detection initState evC4).detected_drones =
      some { id := "A", timestamp := 5, power := some (-47), dtype := none
             location := none, first_seen := 5, last_seen := none
             duration := 1, detection_count := 1 } :=
  C4_amended initState "A" evC4 5 rfl rfl rfl

/-! ## Claim C2 — ingestion queue capacity -/

/-- Draining a list of puts into the queue appends them all: no put is
ever refused or dropped. -/
theorem foldl_queue_put (q : List Detection) :
    ∀ ds : List Detection, ds.foldl queue_put q = q ++ ds
  | [] => by simp
  | d :: ds => by
    simp [List.foldl_cons, queue_put, foldl_queue_put (q ++ [d]) ds]

/-- Claim C2 fails on the code: `detection_queue` is a `queue.Queue()`
built with no `maxsize`, so there is NO finite capacity `C` bounding its
size — for any candidate bound, enqueueing one more event than the
bound exceeds it, and no enqueue ever fails with backpressure. -/
theorem C2_counterexample :
    ¬ ∃ C : Nat, ∀ ds : List Detection,
        (ds.foldl queue_put initQueue).length ≤ C := by
  rintro ⟨C, hC⟩
  have h := hC (List.replicate (C + 1) { id := none, timestamp := none })
  rw [foldl_queue_put] at h
  simp [initQueue] at h

/-- Claim C2 as amended: the ingestion queue is unbounded; every
enqueue succeeds by appending (the producer is never blocked and never
receives a backpressure failure), and consequently for every candidate
capacity `C` there is an enqueue sequence leaving more than `C` events
in the queue. -/
theorem C2_amended :
    (∀ (q : List Detection) (d : Detection), queue_put q d = q ++ [d]) ∧
    (∀ q ds : List Detection,
        ds.foldl queue_put q = q ++ ds ∧
        (ds.foldl queue_put q).length = q.length + ds.length) ∧
    ∀ C : Nat, ∃ ds : List Detection,
        (ds.foldl queue_put initQueue).length > C := by
  refine ⟨fun q d => rfl, fun q ds => ⟨foldl_queue_put q ds, ?_⟩, fun C => ?_⟩
  · rw [foldl_queue_put]
    simp
  · exact ⟨List.replicate (C + 1) { id := none, timestamp := none },
      by rw [foldl_queue_put]; simp [initQueue]⟩

/-! ## Claim C8 — rejection of malformed events -/

/-- Well-formed event preceding the malformed one in the C8 scenario. -/
def evGoodC8 : Detection :=
  { id := some "B", timestamp := some 2, power := some (-55) }

/-- Well-formed event following the malformed one in the C8 scenario. -/
def evGoodC8b : Detection :=
  { id := some "C", timestamp := some 4, power := some (-58) }

/-- Malformed event: its `id` key is missing. -/
def evBadC8 : Detection :=
  { id := none, timestamp := some 9, power := some (-40) }

/-- Detector state after one well-formed event, used as the state in
which the malformed event of claim C8 is dequeued. -/
def sC8 : DetectorState := runDetector [evGoodC8]

/-- Claim C8 fails on the code in its counter clause: dequeuing a
malformed event leaves the ENTIRE state unchanged — in particular every
counter the detector keeps (`total_detections`, the unique set, the
registry) is exactly as before, so no rejection counter is incremented
(none exists in the code). -/
theorem C8_counterexample :
    process_detection sC8 evBadC8 = sC8 ∧
    (process_detection sC8 evBadC8).stats = sC8.stats := by
  decide

/-- Claim C8 as amended: a malformed event (missing `EmitterID` or
`Timestamp`) is rejected atomically — registry, history and all stats
counters are left unchanged — and the consumer loop goes on to process
the remaining events; however no rejection counter is incremented,
because the code keeps none. -/
theorem C8_amended (s : DetectorState) (d : Detection) (rest : List Detection)
    (hbad : d.id = none ∨ d.timestamp = none) :
    process_detection s d = s ∧
    (d :: rest).foldl process_detection s = rest.foldl process_detection s := by
  have h := process_malformed s d hbad
  exact ⟨h, by rw [List.foldl_cons, h]⟩

/-- Witness for the amended claim C8: the id-less event, dequeued
between two well-formed ones, changes nothing and the loop continues
with the next event. -/
theorem C8_amended_witness :
    process_detection sC8 evBadC8 = sC8 ∧
    (evBadC8 :: [evGoodC8b]).foldl process_detection sC8 =
      [evGoodC8b].foldl process_detection sC8 :=
  C8_amended sC8 evBadC8 [evGoodC8b] (Or.inl rfl)

/-! ## Claim C5 — repeated applies on one emitter id -/

/-- Event stream carrying one fixed emitter id and the given
timestamps, in order. -/
def sameIdEvents (k : String) (tss : List Nat) : List Detection :=
  tss.map fun ts => { id := some k, timestamp := some ts }

/-- Folding a same-id stream over a state already containing the id
adds one to both counters per event and moves `last_seen` to the LAST
timestamp of the stream (not the maximum). -/
theorem lookup_foldl_sameId (k : String) :
    ∀ (tss : List Nat) (s : DetectorState) (t : Track),
      List.lookup k s.detected_drones = some t →
      List.lookup k
          ((sameIdEvents k tss).foldl process_detection s).detected_drones =
        some { t with
                 last_seen :=
                   match tss.getLast? with
                   | none => t.last_seen
                   | some x => some x
                 duration := t.duration + tss.length
                 detection_count := t.detection_count + tss.length }
  | [], s, t, hl => by simpa [sameIdEvents] using hl
  | ts :: rest, s, t, hl => by
    have hstep := lookup_process_present s k t
      { id := some k, timestamp := some ts } ts rfl rfl hl
    have hrest := lookup_foldl_sameId k rest
      (process_detection s { id := some k, timestamp := some ts })
      { t with
          last_seen := some ts
          duration := t.duration + 1
          detection_count := t.detection_count + 1 }
      hstep
    have hfold :
        (sameIdEvents k (ts :: rest)).foldl process_detection s =
          (sameIdEvents k rest).foldl process_detection
            (process_detection s { id := some k, timestamp := some ts }) := rfl
    rw [hfold, hrest]
    cases rest with
    | nil => simp
    | cons r rs =>
      rcases hgl : (r :: rs).getLast? with _ | x
      · simp at hgl
      · simp only [List.getLast?_cons_cons, hgl, List.length_cons,
          Option.some.injEq, Track.mk.injEq, true_and, and_true, eq_self_iff_true]
        omega

/-- Detector state after two applies of emitter id `A` with
out-of-order timestamps 5 then 3. -/
def sC5 : DetectorState :=
  runDetector [{ id := some "A", timestamp := some 5 },
               { id := some "A", timestamp := some 3 }]

/-- Claim C5 fails on the code: after two applies with timestamps 5
then 3 the track's `last_seen` is 3 (the LAST applied timestamp), not
the maximum 5, and its `first_seen` is 5 (the FIRST applied timestamp),
not the minimum 3; `last_seen` is also not monotone since it moved down
from the creating event's timestamp. -/
theorem C5_counterexample :
    (List.lookup "A" sC5.detected_drones).map Track.detection_count = some 2 ∧
    (List.lookup "A" sC5.detected_drones).map Track.last_seen
      = some (some 3) ∧
    ¬ (3 : Nat) = max 5 3 ∧
    (List.lookup "A" sC5.detected_drones).map Track.first_seen = some 5 ∧
    ¬ (5 : Nat) = min 5 3 := by
  decide

/-- Claim C5 as amended: after `N ≥ 1` applies of one emitter id with
timestamps `t0 :: tss`, the track has `detection_count = N`,
`first_seen` equal to the FIRST applied timestamp, and `last_seen`
equal to the LAST applied timestamp — absent when `N = 1`.  These agree
with the claimed min/max only when the timestamps arrive in
non-decreasing order. -/
theorem C5_amended (k : String) (t0 : Nat) (tss : List Nat) :
    List.lookup k
        ((sameIdEvents k (t0 :: tss)).foldl process_detection
          initState).detected_drones =
      some { id := k, timestamp := t0, power := none, dtype := none
             location := none, first_seen := t0, last_seen := tss.getLast?
             duration := tss.length + 1, detection_count := tss.length + 1 } := by
  have hfold :
      (sameIdEvents k (t0 :: tss)).foldl process_detection initState =
        (sameIdEvents k tss).foldl process_detection
          (process_detection initState { id := some k, timestamp := some t0 }) := rfl
  have h1 := lookup_process_absent initState k
    { id := some k, timestamp := some t0 } t0 rfl rfl rfl
  have h2 := lookup_foldl_sameId k tss
    (process_detection initState { id := some k, timestamp := some t0 })
    { id := k, timestamp := t0, power := none, dtype := none
      location := none, first_seen := t0, last_seen := none
      duration := 1, detection_count := 1 } h1
  rw [hfold, h2]
  rcases hgl : tss.getLast? with _ | x
  · simp at hgl
    subst hgl
    simp
  · simp only [Option.some.injEq, Track.mk.injEq, true_and, and_true]
    omega

/-! ## Claim C9 — duration mirrors detection count -/

/-- One consumer-loop iteration preserves the invariant that every
stored track's `duration` equals its `detection_count`: both are set to
1 at creation (lines 263-264) and incremented together on a repeat
(lines 258-259). -/
theorem duration_eq_count_process (s : DetectorState) (d : Detection)
    (hinv : ∀ p ∈ s.detected_drones,
      (Prod.snd p).duration = (Prod.snd p).detection_count) :
    ∀ p ∈ (process_detection s d).detected_drones,
      (Prod.snd p).duration = (Prod.snd p).detection_count := by
  intro p hp
  cases hid : d.id with
  | none =>
    rw [process_malformed s d (Or.inl hid)] at hp
    exact hinv p hp
  | some k =>
    cases hts : d.timestamp with
    | none =>
      rw [process_malformed s d (Or.inr hts)] at hp
      exact hinv p hp
    | some ts =>
      cases hl : List.lookup k s.detected_drones with
      | some t =>
        simp only [process_detection, hid, hts, hl] at hp
        rcases List.mem_map.mp hp with ⟨q, hq, hqe⟩
        by_cases h : q.1 = k
        · rw [← hqe]
          simp only [h, if_pos rfl]
          have := hinv q hq
          simp [this]
        · rw [← hqe]
          simp only [if_neg h]
          exact hinv q hq
      | none =>
        simp only [process_detection, hid, hts, hl] at hp
        rcases List.mem_append.mp hp with h | h
        · exact hinv p h
        · simp only [List.mem_singleton] at h
          rw [h]
  
/-- The invariant of `duration_eq_count_process`, carried over a whole
event stream. -/
theorem duration_eq_count_foldl (ds : List Detection) :
    ∀ s : DetectorState,
      (∀ p ∈ s.detected_drones,
        (Prod.snd p).duration = (Prod.snd p).detection_count) →
      ∀ p ∈ (ds.foldl process_detection s).detected_drones,
        (Prod.snd p).duration = (Prod.snd p).detection_count := by
  induction ds with
  | nil =>
    intro s h
    simpa using h
  | cons d ds ih =>
    intro s h
    exact ih _ (duration_eq_count_process s d h)

/-- Claim C9 holds: after any processed event stream, every track's
`duration` equals its `detection_count` — the displayed "duration"
counts detections, not elapsed seconds. -/
theorem C9_duration_eq_detection_count (ds : List Detection)
    (k : String) (t : Track)
    (h : List.lookup k (runDetector ds).detected_drones = some t) :
    t.duration = t.detection_count := by
  have hmem := mem_of_lookup_eq_some k t _ h
  have := duration_eq_count_foldl ds initState (by simp [initState]) (k, t) hmem
  simpa using this

/-- Track of emitter `A` after the two events of the C9 witness run. -/
def tC9 : Track :=
  { id := "A", timestamp := 1, power := some (-52), dtype := none
    location := none, first_seen := 1, last_seen := some 4
    duration := 2, detection_count := 2 }

/-- Witness for claim C9 at a concrete two-event run. -/
theorem C9_witness : tC9.duration = tC9.detection_count :=
  C9_duration_eq_detection_count
    [{ id := some "A", timestamp := some 1, power := some (-52) },
     { id := some "A", timestamp := some 4, power := some (-49) }]
    "A" tC9 (by decide)

/-! ## Claim C10 — registry size always equals unique-emitter count -/

/-- One consumer-loop iteration preserves equality between the
registry's key sequence and the `unique_drones` set: a fresh key is
appended to both (lines 265-266), a repeat changes neither. -/
theorem keys_eq_unique_process (s : DetectorState) (d : Detection)
    (hinv : s.detected_drones.map Prod.fst = s.stats.unique_drones) :
    (process_detection s d).detected_drones.map Prod.fst =
      (process_detection s d).stats.unique_drones := by
  cases hid : d.id with
  | none =>
    rw [process_malformed s d (Or.inl hid)]
    exact hinv
  | some k =>
    cases hts : d.timestamp with
    | none =>
      rw [process_malformed s d (Or.inr hts)]
      exact hinv
    | some ts =>
      cases hl : List.lookup k s.detected_drones with
      | some t =>
        rw [keys_process_present s k t d ts hid hts hl, hinv]
        simp [process_detection, hid, hts, hl]
      | none =>
        rw [keys_process_absent s k d ts hid hts hl, hinv]
        have hk : k ∉ s.stats.unique_drones := by
          rw [← hinv]
          exact (lookup_eq_none_iff k s.detected_drones).mp hl
        simp [process_detection, hid, hts, hl, setAdd, hk]

/-- The invariant of `keys_eq_unique_process`, carried over a whole
event stream. -/
theorem keys_eq_unique_foldl (ds : List Detection) :
    ∀ s : DetectorState,
      s.detected_drones.map Prod.fst = s.stats.unique_drones →
      (ds.foldl process_detection s).detected_drones.map Prod.fst =
        (ds.foldl process_detection s).stats.unique_drones := by
  induction ds with
  | nil =>
    intro s h
    simpa using h
  | cons d ds ih =>
    intro s h
    exact ih _ (keys_eq_unique_process s d h)

/-- Claim C10 holds: after any processed event stream the live registry
is in bijection with the ever-created unique-emitter set — its key
sequence IS the unique set, so the "active drones" figure always equals
the count of all emitters ever seen (no operation removes a key). -/
theorem C10_registry_eq_unique (ds : List Detection) :
    (runDetector ds).detected_drones.length =
      (runDetector ds).stats.unique_drones.length ∧
    (runDetector ds).detected_drones.map Prod.fst =
      (runDetector ds).stats.unique_drones := by
  simp only [runDetector]
  have h := keys_eq_unique_foldl ds initState rfl
  refine ⟨?_, h⟩
  rw [← h]
  simp

/-! ## Claim C3 — idle sweep and eviction lifecycle -/

/-- Injective family of emitter id strings, used to model a sustained
stream of pairwise distinct emitters. -/
def natId (n : Nat) : String := String.mk (List.replicate n 'a')

/-- Two different indices give two different emitter id strings. -/
theorem natId_injective : Function.Injective natId := by
  intro m n h
  have hd : List.replicate m 'a' = List.replicate n 'a' := congrArg String.data h
  have := congrArg List.length hd
  simpa using this

/-- Stream of `n` events with pairwise distinct emitter ids and widely
spaced timestamps: every emitter is seen exactly once and is then idle
for the rest of the run. -/
def distinctEvents (n : Nat) : List Detection :=
  (List.range n).map fun i =>
    { id := some (natId i), timestamp := some (1000 * i) }

/-- Detector state after consuming `distinctEvents n`. -/
def distinctRun (n : Nat) : DetectorState :=
  (distinctEvents n).foldl process_detection initState

/-- After `n` distinct-id events the registry keys are exactly the `n`
ids, in arrival order: nothing is ever swept or evicted. -/
theorem keys_distinctRun (n : Nat) :
    (distinctRun n).detected_drones.map Prod.fst =
      (List.range n).map natId := by
  induction n with
  | zero => rfl
  | succ m ih =>
    have hsplit : distinctEvents (m + 1) =
        distinctEvents m ++
          [{ id := some (natId m), timestamp := some (1000 * m) }] := by
      simp [distinctEvents, List.range_succ]
    have hfold : distinctRun (m + 1) =
        process_detection (distinctRun m)
          { id := some (natId m), timestamp := some (1000 * m) } := by
      rw [distinctRun, hsplit, List.foldl_append]
      rfl
    have habs :
        List.lookup (natId m) (distinctRun m).detected_drones = none := by
      rw [lookup_eq_none_iff, ih]
      intro hmem
      rcases List.mem_map.mp hmem with ⟨i, hi, he⟩
      have hieq := natId_injective he
      subst hieq
      simp at hi
    rw [hfold,
      keys_process_absent (distinctRun m) (natId m) _ (1000 * m) rfl rfl habs,
      ih, List.range_succ]
    simp

/-- The live registry after `n` distinct-id events holds `n` tracks. -/
theorem length_distinctRun (n : Nat) :
    (distinctRun n).detected_drones.length = n := by
  have h := congrArg List.length (keys_distinctRun n)
  simpa using h

/-- Processing any single event never shrinks the registry. -/
theorem registry_monotone (s : DetectorState) (d : Detection) :
    s.detected_drones.length ≤
      (process_detection s d).detected_drones.length := by
  cases hid : d.id with
  | none =>
    rw [process_malformed s d (Or.inl hid)]
  | some k =>
    cases hts : d.timestamp with
    | none =>
      rw [process_malformed s d (Or.inr hts)]
    | some ts =>
      cases hl : List.lookup k s.detected_drones with
      | some t =>
        simp [process_detection, hid, hts, hl]
      | none =>
        simp [process_detection, hid, hts, hl]

/-- Claim C3 fails on the code: there is no idle sweep, no
`ACTIVE → STALE → EVICTED` transition and no removal from
`detected_drones` anywhere — under a sustained stream of distinct
short-lived emitters the live map exceeds every bound. -/
theorem C3_counterexample :
    ¬ ∃ B : Nat, ∀ n : Nat,
        (distinctRun n).detected_drones.length ≤ B := by
  rintro ⟨B, hB⟩
  have h := hB (B + 1)
  rw [length_distinctRun] at h
  omega

/-- Claim C3 as amended: the code has no eviction lifecycle at all —
processing an event never shrinks the registry, and a stream of `n`
distinct short-lived emitters leaves exactly `n` live tracks forever,
so the live map DOES grow without bound under sustained churn. -/
theorem C3_amended :
    (∀ (s : DetectorState) (d : Detection),
        s.detected_drones.length ≤
          (process_detection s d).detected_drones.length) ∧
    ∀ n : Nat, (distinctRun n).detected_drones.length = n :=
  ⟨registry_monotone, length_distinctRun⟩

/-! ## Claim C6 — history log capacity and FIFO eviction -/

/-- Python slice `l[-n:]`: the last `n` elements of `l` (all of `l`
when it is shorter than `n`). -/
def lastN (n : Nat) (l : List Detection) : List Detection :=
  l.drop (l.length - n)

/-- The truncation at lines 272-274 always equals keeping the last 1000
entries (when the length is at most 1000 nothing is dropped). -/
theorem truncateHistory_eq_lastN (h : List Detection) :
    truncateHistory h = lastN 1000 h := by
  unfold truncateHistory lastN
  by_cases hl : h.length > 1000
  · simp [hl]
  · have h0 : h.length - 1000 = 0 := by omega
    simp [hl, h0]

/-- Keeping the last `n` is idempotent across a later append: the
entries beyond the last `n` never influence the retained window. -/
theorem lastN_append_lastN (n : Nat) (X Y : List Detection) :
    lastN n (lastN n X ++ Y) = lastN n (X ++ Y) := by
  unfold lastN
  by_cases hx : X.length ≤ n
  · have h0 : X.length - n = 0 := by omega
    simp [h0]
  · have hlenZ : (X.drop (X.length - n)).length = n := by
      rw [List.length_drop]
      omega
    rw [List.drop_append_eq_append_drop, List.drop_append_eq_append_drop,
      List.length_append, List.length_append, hlenZ, List.drop_drop]
    have e1 : X.length - n + (n + Y.length - n) =
        X.length + Y.length - n := by omega
    have e2 : n + Y.length - n - n = X.length + Y.length - n - X.length := by
      omega
    rw [e1, e2]

/-- After one valid event the history is the old history plus the event,
truncated to the last 1000. -/
theorem history_process_step (s : DetectorState) (d : Detection)
    (hid : d.id ≠ none) (hts : d.timestamp ≠ none) :
    (process_detection s d).detection_history =
      truncateHistory (s.detection_history ++ [d]) := by
  cases hidv : d.id with
  | none => exact absurd hidv hid
  | some k =>
    cases htsv : d.timestamp with
    | none => exact absurd htsv hts
    | some ts =>
      cases hl : List.lookup k s.detected_drones with
      | some t => simp [process_detection, hidv, htsv, hl]
      | none => simp [process_detection, hidv, htsv, hl]

/-- Running the consumer over a stream of valid events from a state
whose history is within capacity leaves exactly the last 1000 of the
old history followed by the stream. -/
theorem history_foldl :
    ∀ ds : List Detection,
      (∀ d ∈ ds, d.id ≠ none ∧ d.timestamp ≠ none) →
      ∀ s : DetectorState, s.detection_history.length ≤ 1000 →
        (ds.foldl process_detection s).detection_history =
          lastN 1000 (s.detection_history ++ ds)
  | [], _, s, hs => by
    have h0 : s.detection_history.length - 1000 = 0 := by omega
    simp [lastN, h0]
  | d :: ds, hv, s, hs => by
    have hd := hv d (List.mem_cons_self d ds)
    have hstep := history_process_step s d hd.1 hd.2
    have hlen : (process_detection s d).detection_history.length ≤ 1000 := by
      rw [hstep, truncateHistory_eq_lastN, lastN, List.length_drop]
      omega
    have hrec := history_foldl ds (fun e he => hv e (List.mem_cons_of_mem d he))
      (process_detection s d) hlen
    rw [List.foldl_cons, hrec, hstep, truncateHistory_eq_lastN,
      lastN_append_lastN, List.append_assoc]
    rfl

/-- Claim C6 holds: feeding 1001 well-formed events through the
consumer loop leaves `detection_history` equal to events 2..1001 in
append order (the first event evicted, FIFO) with exactly 1000
entries. -/
theorem C6_history_fifo (ds : List Detection)
    (hv : ∀ d ∈ ds, d.id ≠ none ∧ d.timestamp ≠ none)
    (hlen : ds.length = 1001) :
    (runDetector ds).detection_history = ds.drop 1 ∧
    (runDetector ds).detection_history.length = 1000 := by
  have h := history_foldl ds hv initState (by simp [initState])
  have hh : (runDetector ds).detection_history = ds.drop 1 := by
    rw [runDetector, h]
    have hnil : initState.detection_history ++ ds = ds := by
      simp [initState]
    rw [hnil, lastN, hlen]
  exact ⟨hh, by rw [hh]; simp [hlen]⟩

/-- Witness event family for claim C6: 1001 well-formed events. -/
def evC6 (i : Nat) : Detection := { id := some "A", timestamp := some i }

/-- Witness for claim C6 at a concrete stream of 1001 events. -/
theorem C6_history_fifo_witness :
    (runDetector ((List.range 1001).map evC6)).detection_history =
      ((List.range 1001).map evC6).drop 1 ∧
    (runDetector ((List.range 1001).map evC6)).detection_history.length
      = 1000 :=
  C6_history_fifo ((List.range 1001).map evC6)
    (by
      intro d hd
      rcases List.mem_map.mp hd with ⟨i, _, hi⟩
      rw [← hi]
      exact ⟨by simp [evC6], by simp [evC6]⟩)
    (by simp)

/-! ## Claim C7 — export document contents -/

/-- Detector state holding 101 retained history entries (one more than
the API export window). -/
def sC7 : DetectorState :=
  { detected_drones :=
      [("A", { id := "A", timestamp := 0, power := some (-45), dtype := none
               location := none, first_seen := 0, last_seen := some 100
               duration := 101, detection_count := 101 })]
    detection_history :=
      List.replicate 101 { id := some "A", timestamp := some 0 }
    stats := { total_detections := 101, unique_drones := ["A"], last_update := 0 } }

/-- Claim C7 fails on the code: the `/api/export` document's history
component is `detection_history[-100:]` — on a state retaining 101
entries it carries only 100 of them, a strict subset of the retained
log, not the full contents. -/
theorem C7_counterexample :
    (api_export sC7 0).detection_history.length = 100 ∧
    sC7.detection_history.length = 101 ∧
    ¬ (api_export sC7 0).detection_history = sC7.detection_history := by
  refine ⟨by decide, by decide, fun he => ?_⟩
  have hl := congrArg List.length he
  simp [api_export, sC7] at hl

/-- Three C7 scenario events: three applies across two distinct
emitter ids. -/
def sC7run : DetectorState :=
  runDetector [{ id := some "A", timestamp := some 1, power := some (-45) },
               { id := some "B", timestamp := some 2, power := some (-50) },
               { id := some "A", timestamp := some 3, power := some (-52) }]

/-- Claim C7 as amended: the export document keeps the claimed schema
(registry map, history list, stats, export time) and after 3 applies
across 2 distinct ids it has 2 emitter entries and
`total_detections = 3`; but only the shutdown export `save_data`
writes the full retained history — the `/api/export` endpoint writes
just the most recent 100 entries (the full log only when at most 100
are retained). -/
theorem C7_amended :
    (∀ (s : DetectorState) (now : Nat),
        (save_data s now).detection_history = s.detection_history ∧
        (save_data s now).detected_drones = s.detected_drones ∧
        (api_export s now).detection_history =
          s.detection_history.drop (s.detection_history.length - 100) ∧
        (api_export s now).detected_drones = s.detected_drones ∧
        (api_export s now).total_detections = s.stats.total_detections ∧
        (api_export s now).export_time = now) ∧
    ((api_export sC7run 9).detected_drones.length = 2 ∧
     (api_export sC7run 9).total_detections = 3 ∧
     (api_export sC7run 9).detection_history = sC7run.detection_history ∧
     (save_data sC7run 9).detection_history = sC7run.detection_history) :=
  ⟨fun s now => ⟨rfl, rfl, rfl, rfl, rfl, rfl⟩, by decide⟩
